import Mathlib

/-!
Shallow embedding of `src/school_logging/log.py` (class `ColoredLogger`,
class `CriticalExitHandler`, class `ColoredFormatter`) together with the
parts of the platform logging primitive (name registry, handler chain,
per-handler level filter, effective-level computation, last-resort
handler) that the module's behaviour depends on.  Severity levels use the
platform's numeric encoding: DEBUG = 10, INFO = 20, WARNING = 30,
ERROR = 40, CRITICAL = 50; NOTSET = 0.
-/

namespace SchoolLogging

/-- Decidable string equality as a Bool, used for registry filtering. -/
def strEq (a b : String) : Bool := decide (a = b)

/-- Association-list lookup keyed by strings (embeds dict lookup). -/
def lookupStr {α : Type} (k : String) : List (String × α) → Option α
  | [] => none
  | (k2, v) :: rest => if k = k2 then some v else lookupStr k rest

/-- `LOG_COLORS` from log.py lines 8-14: severity name to ANSI color code. -/
def LOG_COLORS : List (String × String) :=
  [(("DEBUG"), ("\x1b[94m")),
   (("INFO"), ("\x1b[92m")),
   (("WARNING"), ("\x1b[93m")),
   (("ERROR"), ("\x1b[91m")),
   (("CRITICAL"), ("\x1b[95m"))]

/-- `RESET_COLOR` from log.py line 17. -/
def RESET_COLOR : String := "\x1b[0m"

/-- `LOG_COLORS.get(record.levelname, RESET_COLOR)` from log.py line 33. -/
def getColor (levelname : String) : String :=
  (lookupStr levelname LOG_COLORS).getD RESET_COLOR

/-- The platform's `getLevelName` restricted to the five standard levels
(the record's `levelname` attribute). -/
def levelName (n : Nat) : String :=
  if n = 50 then "CRITICAL"
  else if n = 40 then "ERROR"
  else if n = 30 then "WARNING"
  else if n = 20 then "INFO"
  else if n = 10 then "DEBUG"
  else "Level ?"

/-- A log record as consumed by handlers: logger name, numeric severity,
message, plus the timestamp and originating-file strings the formatter
interpolates (opaque inputs produced by the platform). -/
structure LogRecord where
  name : String
  levelno : Nat
  msg : String
  asctime : String
  filename : String
deriving DecidableEq

/-- The base template
`'%(asctime)s - %(filename)s - %(name)s - [%(levelname)s] - %(message)s'`
passed to `ColoredFormatter` at log.py lines 65, 83. -/
def base_format (r : LogRecord) : String :=
  r.asctime ++ " - " ++ r.filename ++ " - " ++ r.name ++ " - [" ++
    levelName r.levelno ++ "] - " ++ r.msg

/-- `ColoredFormatter.format` from log.py lines 32-35: wrap the rendered
line in the severity's color plus reset when `colored`, else return it
unchanged. -/
def ColoredFormatter_format (colored : Bool) (r : LogRecord) : String :=
  if colored then getColor (levelName r.levelno) ++ base_format r ++ RESET_COLOR
  else base_format r

/-- The three kinds of handler the module attaches: console stream
handler, file handler (carrying its target path), and the
`CriticalExitHandler`. -/
inductive HandlerKind where
  | console : HandlerKind
  | file : String → HandlerKind
  | criticalExit : HandlerKind
deriving DecidableEq

/-- A handler: its kind, its level filter, and whether its formatter
colorizes. -/
structure Handler where
  kind : HandlerKind
  level : Nat
  colored : Bool
deriving DecidableEq

/-- `CriticalExitHandler()` as attached at log.py line 89: a plain
`logging.Handler` whose level defaults to NOTSET = 0. -/
def critHandler : Handler := ⟨HandlerKind.criticalExit, 0, false⟩

/-- Observable effects of one emission: console writes, file writes
(path and line), and process exit with a status code. -/
inductive Event where
  | console : String → Event
  | fileLine : String → String → Event
  | exitProcess : Nat → Event
deriving DecidableEq

/-- One handler's `emit` on a record, returning its events and whether it
raised process exit (`CriticalExitHandler.emit`, log.py lines 23-25:
`if record.levelno >= logging.CRITICAL: sys.exit(1)`). -/
def handlerEmit (h : Handler) (r : LogRecord) : List Event × Bool :=
  match h.kind with
  | HandlerKind.console => ([Event.console (ColoredFormatter_format h.colored r)], false)
  | HandlerKind.file p => ([Event.fileLine p (ColoredFormatter_format h.colored r)], false)
  | HandlerKind.criticalExit =>
      if 50 ≤ r.levelno then ([Event.exitProcess 1], true) else ([], false)

/-- The platform's `callHandlers` loop body over a flattened handler
list: each handler whose level the record reaches emits; a raised process
exit stops the remaining handlers. -/
def runHandlers : List Handler → LogRecord → List Event
  | [], _ => []
  | h :: hs, r =>
    if h.level ≤ r.levelno then
      let res := handlerEmit h r
      if res.2 then res.1 else res.1 ++ runHandlers hs r
    else runHandlers hs r

/-- Per-name logger state in the platform registry: level (0 = NOTSET),
propagate flag, and attached handlers. -/
structure LoggerState where
  level : Nat
  propagate : Bool
  handlers : List Handler
deriving DecidableEq

/-- State of a logger never configured: NOTSET / propagating / no
handlers; the root logger (empty name) is created at level WARNING. -/
def defaultState (name : String) : LoggerState :=
  if name = "" then ⟨30, true, []⟩ else ⟨0, true, []⟩

/-- The process-wide state the module touches: the platform's logger
registry and `ColoredLogger._shared_log_file` (log.py line 43). -/
structure LogSystem where
  registry : List (String × LoggerState)
  sharedLogFile : Option String
deriving DecidableEq

/-- A fresh process: empty registry, `_shared_log_file = None`. -/
def emptySystem : LogSystem := ⟨[], none⟩

/-- `logging.getLogger(name)`: the registered state, or the default for
a logger not yet configured. -/
def getLoggerState (sys : LogSystem) (name : String) : LoggerState :=
  (lookupStr name sys.registry).getD (defaultState name)

/-- Replace the state registered under `name`. -/
def setLoggerState (sys : LogSystem) (name : String) (st : LoggerState) : LogSystem :=
  ⟨(name, st) :: sys.registry.filter (fun p => !(strEq p.1 name)), sys.sharedLogFile⟩

/-- Split a name on the dots, embedding the platform's dotted logger
hierarchy. -/
def splitDots : List Char → List (List Char)
  | [] => [[]]
  | c :: cs =>
    if c = '.' then [] :: splitDots cs
    else
      match splitDots cs with
      | [] => [[c]]
      | p :: ps => (c :: p) :: ps

/-- Rebuild each proper dotted prefix of a name from its parts, in
ascending length order. -/
def accNames : Bool → String → List (List Char) → List String
  | _, _, [] => []
  | isFirst, acc, p :: ps =>
    let nm := if isFirst then String.mk p else acc ++ "." ++ String.mk p
    nm :: accNames false nm ps

/-- The chain the platform's `callHandlers` and `getEffectiveLevel` walk:
the logger itself, then its dotted ancestors, then the root logger. -/
def ancestorChain (name : String) : List String :=
  if name = "" then [("")]
  else name :: ((accNames true ("") ((splitDots name.toList).dropLast)).reverse ++ [("")])

/-- All handlers the record can reach, walking the ancestor chain and
stopping after the first logger whose `propagate` is false. -/
def chainHandlers (sys : LogSystem) : List String → List Handler
  | [] => []
  | n :: ns =>
    (getLoggerState sys n).handlers ++
      (if (getLoggerState sys n).propagate then chainHandlers sys ns else [])

/-- First explicitly-set level along the chain (platform
`getEffectiveLevel`). -/
def effectiveLevelAux (sys : LogSystem) : List String → Nat
  | [] => 0
  | n :: ns =>
    if (getLoggerState sys n).level ≠ 0 then (getLoggerState sys n).level
    else effectiveLevelAux sys ns

/-- `Logger.getEffectiveLevel` for `name`. -/
def getEffectiveLevel (sys : LogSystem) (name : String) : Nat :=
  effectiveLevelAux sys (ancestorChain name)

/-- The platform's last-resort handler (used when a record found no
handler at all): level WARNING, writes the bare message to the console
stream. -/
def lastResortEvents (r : LogRecord) : List Event :=
  if 30 ≤ r.levelno then [Event.console r.msg] else []

/-- Platform `Logger.callHandlers`: dispatch the record to every handler
along the chain, or to the last-resort handler when none exists. -/
def callHandlersEvents (sys : LogSystem) (name : String) (r : LogRecord) : List Event :=
  if (chainHandlers sys (ancestorChain name)).isEmpty then lastResortEvents r
  else runHandlers (chainHandlers sys (ancestorChain name)) r

/-- One emission call (`Logger.debug/info/warning/error/critical`, as
forwarded by log.py lines 169-187): the record is produced and dispatched
only when its level reaches the logger's effective level
(`isEnabledFor`). -/
def emitRecord (sys : LogSystem) (name : String) (lvl : Nat)
    (msg asctime filename : String) : List Event :=
  if getEffectiveLevel sys name ≤ lvl then
    callHandlersEvents sys name ⟨name, lvl, msg, asctime, filename⟩
  else []

/-- ASCII upper-casing, embedding Python's `str.upper` on the ASCII
strings this module compares. -/
def upperAscii (s : String) : String := String.mk (s.toList.map Char.toUpper)

/-- `log_level_mapping` from log.py lines 199-205. -/
def logLevelMapping : List (String × Nat) :=
  [(("DEBUG"), 10), (("INFO"), 20), (("WARNING"), 30),
   (("ERROR"), 40), (("CRITICAL"), 50)]

/-- `ColoredLogger._map_log_level` (log.py lines 189-206):
`log_level_mapping.get(verbose.upper(), logging.INFO)`. -/
def map_log_level (verbose : String) : Nat :=
  (lookupStr (upperAscii verbose) logLevelMapping).getD 20

/-- The shared log file path computed at log.py lines 73-76:
`os.path.join('logging', 'logs_<timestamp>.log')`; the timestamp string
is an opaque input from the clock. -/
def mkSharedPath (timestamp : String) : String :=
  ("logging/logs_") ++ timestamp ++ (".log")

/-- The path `_setup_logger` ends up using: the already-shared one if
set, else the freshly computed one (log.py lines 72-80). -/
def sharedPathOf (sys : LogSystem) (now : String) : String :=
  sys.sharedLogFile.getD (mkSharedPath now)

/-- `ColoredLogger._setup_logger` (log.py lines 50-91): set the logger's
level to the constructor's mapped verbosity, disable propagation, remove
all existing handlers, then attach the colored console handler at that
level, the shared uncolored file handler at DEBUG, and the
`CriticalExitHandler`; the shared file path is assigned on first use. -/
def setup_logger (sys : LogSystem) (name : String) (level : Nat) (now : String) : LogSystem :=
  ⟨(name,
    ⟨level, false,
     [⟨HandlerKind.console, level, true⟩,
      ⟨HandlerKind.file (sharedPathOf sys now), 10, false⟩,
      critHandler]⟩) :: sys.registry.filter (fun p => !(strEq p.1 name)),
   some (sharedPathOf sys now)⟩

/-- `ColoredLogger.__init__` (log.py lines 45-48): map the verbosity
string and run `_setup_logger`. -/
def ColoredLogger_init (sys : LogSystem) (name verbose now : String) : LogSystem :=
  setup_logger sys name (map_log_level verbose) now

/-- `logging.getLogger(n).setLevel(lvl)` leaving everything else in
place. -/
def setLoggerLevel (sys : LogSystem) (name : String) (lvl : Nat) : LogSystem :=
  setLoggerState sys name
    ⟨lvl, (getLoggerState sys name).propagate, (getLoggerState sys name).handlers⟩

/-- `logging.getLogger(n).propagate = False` leaving everything else in
place. -/
def setNoPropagate (sys : LogSystem) (name : String) : LogSystem :=
  setLoggerState sys name
    ⟨(getLoggerState sys name).level, false, (getLoggerState sys name).handlers⟩

/-- The static noise table of `_configure_third_party_loggers`
(log.py lines 144-161), in source order. -/
def thirdPartyLevels : List (String × Nat) :=
  [(("httpx"), 30), (("httpcore"), 30), (("hpack"), 30), (("urllib3"), 30),
   (("asyncio"), 30), (("h2"), 30),
   (("supabase"), 20), (("postgrest"), 30), (("gotrue"), 30),
   (("realtime"), 30), (("storage3"), 30),
   (("transformers"), 30), (("torch"), 30), (("spacy"), 20)]

/-- `ColoredLogger._configure_third_party_loggers` (log.py lines
141-167): set each listed logger's level, then set `propagate = False`
on each of the same names. -/
def configure_third_party_loggers (sys : LogSystem) : LogSystem :=
  let s1 := thirdPartyLevels.foldl (fun s p => setLoggerLevel s p.1 p.2) sys
  (thirdPartyLevels.map Prod.fst).foldl (fun s n => setNoPropagate s n) s1

/-- The per-module body of `configure_logging` (log.py lines 106-137):
remove existing handlers, set the level, disable propagation, attach a
colored console handler at the level and the shared uncolored file
handler at DEBUG (no `CriticalExitHandler`). -/
def setupModuleLogger (sys : LogSystem) (m : String) (lvl : Nat) : LogSystem :=
  setLoggerState sys m
    ⟨lvl, false,
     [⟨HandlerKind.console, lvl, true⟩,
      ⟨HandlerKind.file (sys.sharedLogFile.getD ("")), 10, false⟩]⟩

/-- `ColoredLogger.configure_logging` (log.py lines 93-139): apply the
third-party policy, then configure each listed module logger and log one
INFO line through the instance's own logger. -/
def configure_logging (sys : LogSystem) (selfName : String)
    (modules : List (String × String)) (asctime filename : String) :
    LogSystem × List Event :=
  let s1 := configure_third_party_loggers sys
  modules.foldl
    (fun acc p =>
      let s2 := setupModuleLogger acc.1 p.1 (map_log_level p.2)
      let evs := emitRecord s2 selfName 20
        (("Set log level for ") ++ p.1 ++ (" to ") ++ p.2) asctime filename
      (s2, acc.2 ++ evs))
    (s1, [])

/-- Is this handler a console handler? -/
def isConsoleKind : HandlerKind → Bool
  | HandlerKind.console => true
  | _ => false

/-- Is this handler a file handler? -/
def isFileKind : HandlerKind → Bool
  | HandlerKind.file _ => true
  | _ => false

/-- Is this handler the termination handler? -/
def isCritKind : HandlerKind → Bool
  | HandlerKind.criticalExit => true
  | _ => false

/-- Number of console handlers in a handler list. -/
def countConsoleHandlers (hs : List Handler) : Nat :=
  (hs.filter (fun h => isConsoleKind h.kind)).length

/-- Number of file handlers in a handler list. -/
def countFileHandlers (hs : List Handler) : Nat :=
  (hs.filter (fun h => isFileKind h.kind)).length

/-- Number of termination handlers in a handler list. -/
def countCritHandlers (hs : List Handler) : Nat :=
  (hs.filter (fun h => isCritKind h.kind)).length

/-- Is this event a console write? -/
def isConsoleEvent : Event → Bool
  | Event.console _ => true
  | _ => false

/-- Is this event a file write? -/
def isFileEvent : Event → Bool
  | Event.fileLine _ _ => true
  | _ => false

/-- Is this event a process exit? -/
def isExitEvent : Event → Bool
  | Event.exitProcess _ => true
  | _ => false

/-- Number of console lines among the events of one emission. -/
def consoleEventCount (evs : List Event) : Nat :=
  (evs.filter isConsoleEvent).length

/-- Number of file lines among the events of one emission. -/
def fileEventCount (evs : List Event) : Nat :=
  (evs.filter isFileEvent).length

/-- The file path a handler writes to, when it is a file handler. -/
def handlerFilePath (h : Handler) : Option String :=
  match h.kind with
  | HandlerKind.file p => some p
  | _ => none

/-- Every file-handler target path present anywhere in the registry. -/
def registryFilePaths (sys : LogSystem) : List String :=
  (sys.registry.map (fun q => q.2.handlers.filterMap handlerFilePath)).flatten

/-- A sequence of `ColoredLogger` constructions
(name, verbosity, timestamp), applied in order. -/
def applyInits (sys : LogSystem) : List (String × String × String) → LogSystem
  | [] => sys
  | c :: cs => applyInits (ColoredLogger_init sys c.1 c.2.1 c.2.2) cs

/-- Two successive constructions for the same name. -/
def twoConstructions (sys : LogSystem) (name v1 t1 v2 t2 : String) : LogSystem :=
  ColoredLogger_init (ColoredLogger_init sys name v1 t1) name v2 t2

/-- Follows the words of the spec for the refinement claim about
severity parsing: case-insensitive lookup against the five canonical
names, INFO when none matches. -/
def severityFromString (s : String) : Nat :=
  if upperAscii s = ("DEBUG") then 10
  else if upperAscii s = ("INFO") then 20
  else if upperAscii s = ("WARNING") then 30
  else if upperAscii s = ("ERROR") then 40
  else if upperAscii s = ("CRITICAL") then 50
  else 20

/-! Helper lemmas about the embedded operations. -/

theorem getLoggerState_setLoggerState (sys : LogSystem) (name : String) (st : LoggerState) :
    getLoggerState (setLoggerState sys name st) name = st := by
  simp [setLoggerState, getLoggerState, lookupStr]

theorem ancestorChain_head (name : String) :
    ∃ tl, ancestorChain name = name :: tl := by
  unfold ancestorChain
  by_cases h : name = ""
  · subst h; simp
  · simp [h]

theorem map_log_level_mem (v : String) :
    map_log_level v = 10 ∨ map_log_level v = 20 ∨ map_log_level v = 30 ∨
      map_log_level v = 40 ∨ map_log_level v = 50 := by
  simp only [map_log_level, logLevelMapping, lookupStr]
  split_ifs <;> simp

theorem map_log_level_lb (v : String) : 10 ≤ map_log_level v := by
  rcases map_log_level_mem v with h | h | h | h | h <;> omega

theorem map_log_level_ub (v : String) : map_log_level v ≤ 50 := by
  rcases map_log_level_mem v with h | h | h | h | h <;> omega

theorem map_log_level_ne_zero (v : String) : map_log_level v ≠ 0 := by
  have := map_log_level_lb v; omega

theorem getLoggerState_init (sys : LogSystem) (name v t : String) :
    getLoggerState (ColoredLogger_init sys name v t) name =
      ⟨map_log_level v, false,
       [⟨HandlerKind.console, map_log_level v, true⟩,
        ⟨HandlerKind.file (sharedPathOf sys t), 10, false⟩,
        critHandler]⟩ := by
  simp [ColoredLogger_init, setup_logger, getLoggerState, lookupStr]

theorem sharedLogFile_init (sys : LogSystem) (name v t : String) :
    (ColoredLogger_init sys name v t).sharedLogFile = some (sharedPathOf sys t) := by
  simp [ColoredLogger_init, setup_logger]

theorem sharedPathOf_init (sys : LogSystem) (name v t t2 : String) :
    sharedPathOf (ColoredLogger_init sys name v t) t2 = sharedPathOf sys t := by
  simp [sharedPathOf, sharedLogFile_init]

/-- Emission through any logger whose registered state has propagation
off, an explicit level and at least one handler reaches exactly its own
handlers. -/
theorem emitRecord_ownHandlers (sys : LogSystem) (name : String)
    (hprop : (getLoggerState sys name).propagate = false)
    (hlvl : (getLoggerState sys name).level ≠ 0)
    (hne : (getLoggerState sys name).handlers ≠ [])
    (lvl : Nat) (msg a f : String) :
    emitRecord sys name lvl msg a f =
      if (getLoggerState sys name).level ≤ lvl then
        runHandlers (getLoggerState sys name).handlers ⟨name, lvl, msg, a, f⟩
      else [] := by
  obtain ⟨tl, htl⟩ := ancestorChain_head name
  have hch : chainHandlers sys (ancestorChain name) = (getLoggerState sys name).handlers := by
    rw [htl]; simp [chainHandlers, hprop]
  have heff : getEffectiveLevel sys name = (getLoggerState sys name).level := by
    unfold getEffectiveLevel
    rw [htl]; simp [effectiveLevelAux, hlvl]
  unfold emitRecord callHandlersEvents
  rw [heff, hch]
  simp [List.isEmpty_iff, hne]

theorem emitRecord_init (sys : LogSystem) (name v t msg a f : String) (lvl : Nat) :
    emitRecord (ColoredLogger_init sys name v t) name lvl msg a f =
      if map_log_level v ≤ lvl then
        runHandlers
          [⟨HandlerKind.console, map_log_level v, true⟩,
           ⟨HandlerKind.file (sharedPathOf sys t), 10, false⟩,
           critHandler]
          ⟨name, lvl, msg, a, f⟩
      else [] := by
  have hst := getLoggerState_init sys name v t
  rw [emitRecord_ownHandlers (ColoredLogger_init sys name v t) name
        (by rw [hst]) (by rw [hst]; exact map_log_level_ne_zero v) (by rw [hst]; simp)
        lvl msg a f,
     hst]

theorem twoConstructions_state (sys : LogSystem) (name v1 t1 v2 t2 : String) :
    getLoggerState (twoConstructions sys name v1 t1 v2 t2) name =
      ⟨map_log_level v2, false,
       [⟨HandlerKind.console, map_log_level v2, true⟩,
        ⟨HandlerKind.file (sharedPathOf sys t1), 10, false⟩,
        critHandler]⟩ := by
  unfold twoConstructions
  rw [getLoggerState_init, sharedPathOf_init]

/-! Claim theorems. -/

/-- C1: the claim asserts that a logger constructed with console
verbosity WARNING still writes every record to the file sink because the
logger's pass-through level is DEBUG.  The code instead sets the
logger's own level to the console verbosity (`logger.setLevel(self.level)`,
log.py line 52), so `getLogger("svc", "WARNING")` followed by
`info("start")` is dropped before any sink runs: the emission produces no
events at all, in particular no file line — while a WARNING emission on
the same logger does produce exactly one file line. -/
theorem c1_info_never_reaches_file_sink :
    emitRecord (ColoredLogger_init emptySystem ("svc") ("WARNING") ("ts"))
      ("svc") 20 ("start") ("tm") ("ex.py") = [] ∧
    fileEventCount
      (emitRecord (ColoredLogger_init emptySystem ("svc") ("WARNING") ("ts"))
        ("svc") 30 ("low disk") ("tm") ("ex.py")) = 1 := by
  decide

/-- C2 counterexample: constructing `"app"` with verbosity DEBUG and
then again with ERROR does not leave the first configuration unchanged —
the logger's console severity threshold moves from 10 to 40 and the
attached sink list is replaced. -/
theorem c2_repeat_construction_changes_config :
    (getLoggerState (twoConstructions emptySystem ("app") ("DEBUG") ("t1") ("ERROR") ("t2"))
        ("app")).level = 40 ∧
    (getLoggerState (ColoredLogger_init emptySystem ("app") ("DEBUG") ("t1")) ("app")).level = 10 ∧
    (getLoggerState (twoConstructions emptySystem ("app") ("DEBUG") ("t1") ("ERROR") ("t2"))
        ("app")).handlers ≠
      (getLoggerState (ColoredLogger_init emptySystem ("app") ("DEBUG") ("t1")) ("app")).handlers := by
  decide

/-- C2 amended: a repeat construction for the same name does not return
the existing configuration unchanged; it replaces the configuration —
removing all previously attached sinks and attaching a fresh colored
console sink at the second verbosity, the shared file sink at DEBUG, and
the termination handler — while preserving only the shared file path
established at the first construction. -/
theorem c2_repeat_construction_reconfigures (sys : LogSystem) (name v1 t1 v2 t2 : String) :
    getLoggerState (twoConstructions sys name v1 t1 v2 t2) name =
      ⟨map_log_level v2, false,
       [⟨HandlerKind.console, map_log_level v2, true⟩,
        ⟨HandlerKind.file (sharedPathOf sys t1), 10, false⟩,
        critHandler]⟩ ∧
    (twoConstructions sys name v1 t1 v2 t2).sharedLogFile = some (sharedPathOf sys t1) := by
  refine ⟨twoConstructions_state sys name v1 t1 v2 t2, ?_⟩
  unfold twoConstructions
  rw [sharedLogFile_init, sharedPathOf_init]

/-- C3: constructing a logger twice for the same name (any verbosities)
leaves exactly one console sink, one file sink and one termination sink
attached, and emitting one record whose severity reaches the second
console threshold produces exactly one console line and one file line. -/
theorem c3_no_duplicate_sinks (sys : LogSystem)
    (name v1 t1 v2 t2 msg a f : String) (S : Nat)
    (hS : map_log_level v2 ≤ S) :
    countConsoleHandlers
        (getLoggerState (twoConstructions sys name v1 t1 v2 t2) name).handlers = 1 ∧
    countFileHandlers
        (getLoggerState (twoConstructions sys name v1 t1 v2 t2) name).handlers = 1 ∧
    countCritHandlers
        (getLoggerState (twoConstructions sys name v1 t1 v2 t2) name).handlers = 1 ∧
    consoleEventCount (emitRecord (twoConstructions sys name v1 t1 v2 t2) name S msg a f) = 1 ∧
    fileEventCount (emitRecord (twoConstructions sys name v1 t1 v2 t2) name S msg a f) = 1 := by
  have h10 : 10 ≤ S := le_trans (map_log_level_lb v2) hS
  have hE : emitRecord (twoConstructions sys name v1 t1 v2 t2) name S msg a f =
      runHandlers
        [⟨HandlerKind.console, map_log_level v2, true⟩,
         ⟨HandlerKind.file (sharedPathOf sys t1), 10, false⟩,
         critHandler]
        ⟨name, S, msg, a, f⟩ := by
    unfold twoConstructions
    rw [emitRecord_init, sharedPathOf_init, if_pos hS]
  rw [twoConstructions_state, hE]
  by_cases h50 : 50 ≤ S
  · simp [runHandlers, handlerEmit, critHandler, hS, h10, h50,
      countConsoleHandlers, countFileHandlers, countCritHandlers,
      isConsoleKind, isFileKind, isCritKind,
      consoleEventCount, fileEventCount, isConsoleEvent, isFileEvent]
  · simp [runHandlers, handlerEmit, critHandler, hS, h10, h50,
      countConsoleHandlers, countFileHandlers, countCritHandlers,
      isConsoleKind, isFileKind, isCritKind,
      consoleEventCount, fileEventCount, isConsoleEvent, isFileEvent]

/-- C3 witness: the theorem applied at a concrete repeat construction
(`"app"` built with DEBUG then WARNING) and a WARNING-level record. -/
theorem c3_no_duplicate_sinks_witness :
    map_log_level ("WARNING") ≤ 30 ∧
    (countConsoleHandlers
        (getLoggerState (twoConstructions emptySystem ("app") ("DEBUG") ("t1") ("WARNING") ("t2"))
          ("app")).handlers = 1 ∧
      countFileHandlers
        (getLoggerState (twoConstructions emptySystem ("app") ("DEBUG") ("t1") ("WARNING") ("t2"))
          ("app")).handlers = 1 ∧
      countCritHandlers
        (getLoggerState (twoConstructions emptySystem ("app") ("DEBUG") ("t1") ("WARNING") ("t2"))
          ("app")).handlers = 1 ∧
      consoleEventCount
        (emitRecord (twoConstructions emptySystem ("app") ("DEBUG") ("t1") ("WARNING") ("t2"))
          ("app") 30 ("m") ("x") ("y")) = 1 ∧
      fileEventCount
        (emitRecord (twoConstructions emptySystem ("app") ("DEBUG") ("t1") ("WARNING") ("t2"))
          ("app") 30 ("m") ("x") ("y")) = 1) :=
  ⟨by decide,
   c3_no_duplicate_sinks emptySystem ("app") ("DEBUG") ("t1") ("WARNING") ("t2")
     ("m") ("x") ("y") 30 (by decide)⟩

/-- C4: emitting a CRITICAL record through a constructed logger produces
exactly one console line, then one file line, and then — only after both
sinks have processed the record — the process-exit event with status 1;
nothing follows the exit event, so no caller code after the call runs. -/
theorem c4_critical_exits_after_both_sinks (sys : LogSystem) (name v t msg a f : String) :
    ∃ cline fline,
      emitRecord (ColoredLogger_init sys name v t) name 50 msg a f =
        [Event.console cline,
         Event.fileLine (sharedPathOf sys t) fline,
         Event.exitProcess 1] := by
  refine ⟨ColoredFormatter_format true ⟨name, 50, msg, a, f⟩,
          ColoredFormatter_format false ⟨name, 50, msg, a, f⟩, ?_⟩
  have hub := map_log_level_ub v
  rw [emitRecord_init, if_pos hub]
  simp [runHandlers, handlerEmit, critHandler, hub]

/-- C5: `CriticalExitHandler.emit` terminates the process with exit
status 1 exactly when the record's severity is at least CRITICAL (50),
and for every record below CRITICAL it produces no event and raises no
exit. -/
theorem c5_termination_handler_contract (r : LogRecord) :
    handlerEmit critHandler r =
      if 50 ≤ r.levelno then ([Event.exitProcess 1], true) else ([], false) := by
  rfl

theorem registryFilePaths_init_mem (sys : LogSystem) (name v t q : String)
    (hq : q ∈ registryFilePaths (ColoredLogger_init sys name v t)) :
    q = sharedPathOf sys t ∨ q ∈ registryFilePaths sys := by
  simp only [ColoredLogger_init, setup_logger, registryFilePaths, List.map_cons,
    List.flatten_cons, List.mem_append] at hq
  rcases hq with hq | hq
  · left
    simp [List.filterMap, handlerFilePath, critHandler] at hq
    exact hq
  · right
    rcases List.mem_flatten.mp hq with ⟨s, hs, hqs⟩
    rcases List.mem_map.mp hs with ⟨e, he, rfl⟩
    exact List.mem_flatten.mpr
      ⟨_, List.mem_map.mpr ⟨e, List.mem_of_mem_filter he, rfl⟩, hqs⟩

theorem applyInits_invariant (cs : List (String × String × String))
    (sys : LogSystem) (p : String)
    (h1 : sys.sharedLogFile = some p)
    (h2 : ∀ q ∈ registryFilePaths sys, q = p) :
    (applyInits sys cs).sharedLogFile = some p ∧
      ∀ q ∈ registryFilePaths (applyInits sys cs), q = p := by
  induction cs generalizing sys with
  | nil => exact ⟨h1, h2⟩
  | cons c cs ih =>
    have hsp : sharedPathOf sys c.2.2 = p := by simp [sharedPathOf, h1]
    exact ih (ColoredLogger_init sys c.1 c.2.1 c.2.2)
      (by rw [sharedLogFile_init, hsp])
      (fun q hq => by
        rcases registryFilePaths_init_mem sys c.1 c.2.1 c.2.2 q hq with h | h
        · rw [h, hsp]
        · exact h2 q h)

/-- C6: over any nonempty sequence of logger constructions in one
process, the shared log file path is the one computed from the first
construction's timestamp, it is never reassigned, and every file sink of
every logger in the registry writes to that byte-for-byte identical
path. -/
theorem c6_all_file_sinks_share_first_path (n v t : String)
    (cs : List (String × String × String)) :
    (applyInits emptySystem ((n, v, t) :: cs)).sharedLogFile = some (mkSharedPath t) ∧
      ((registryFilePaths (applyInits emptySystem ((n, v, t) :: cs))).all
        (fun q => strEq q (mkSharedPath t))) = true := by
  have hsp : sharedPathOf emptySystem t = mkSharedPath t := by
    simp [sharedPathOf, emptySystem]
  have base1 : (ColoredLogger_init emptySystem n v t).sharedLogFile =
      some (mkSharedPath t) := by
    rw [sharedLogFile_init, hsp]
  have base2 : ∀ q ∈ registryFilePaths (ColoredLogger_init emptySystem n v t),
      q = mkSharedPath t := by
    intro q hq
    rcases registryFilePaths_init_mem emptySystem n v t q hq with h | h
    · rw [h, hsp]
    · simp [registryFilePaths, emptySystem] at h
  have h := applyInits_invariant cs (ColoredLogger_init emptySystem n v t)
    (mkSharedPath t) base1 base2
  refine ⟨h.1, ?_⟩
  rw [List.all_eq_true]
  intro q hq
  simp only [strEq, decide_eq_true_eq]
  exact h.2 q hq

/-- C7: `_map_log_level` coincides, on every input string, with the
spec-side `severityFromString`: a case-insensitive match against the
five canonical severity names, INFO (20) for everything else; in
particular it is total, so construction with a malformed verbosity
string succeeds with console threshold INFO. -/
theorem c7_map_log_level_refines_spec (s : String) :
    map_log_level s = severityFromString s := by
  simp only [map_log_level, severityFromString, logLevelMapping, lookupStr]
  split_ifs <;> rfl

/-- C8: after applying the third-party noise policy in a fresh process,
every listed external logger has its assigned threshold and propagation
to parent/root disabled; for `httpx` (threshold WARNING) a DEBUG record
produces no console output at all, while an ERROR record still reaches
the console (through the platform's last-resort stderr handler, the only
console route left once propagation is off). -/
theorem c8_noise_policy_isolates_third_party (msg a f : String) :
    emitRecord (configure_third_party_loggers emptySystem) ("httpx") 10 msg a f = [] ∧
    emitRecord (configure_third_party_loggers emptySystem) ("httpx") 40 msg a f =
      [Event.console msg] ∧
    (thirdPartyLevels.all (fun p =>
        ((getLoggerState (configure_third_party_loggers emptySystem) p.1).level == p.2) &&
          (!(getLoggerState (configure_third_party_loggers emptySystem) p.1).propagate)))
      = true := by
  have heff : getEffectiveLevel (configure_third_party_loggers emptySystem) ("httpx") = 30 := by
    decide
  have hch : chainHandlers (configure_third_party_loggers emptySystem)
      (ancestorChain ("httpx")) = [] := by decide
  refine ⟨?_, ?_, by decide⟩
  · unfold emitRecord
    rw [heff]
    simp
  · unfold emitRecord callHandlersEvents
    rw [heff, hch]
    simp [lastResortEvents]

/-- C9: a module logger configured through `configure_logging`'s
per-module mapping ends up with exactly one colored console sink at the
given level, one shared file sink at DEBUG, and no termination sink; a
CRITICAL record emitted through it is written to console and file but
produces no process-exit event. -/
theorem c9_module_logger_critical_does_not_exit (sys : LogSystem)
    (name v t m lvlStr msg a f aT fT : String) :
    countConsoleHandlers
      (getLoggerState
        ((configure_logging (ColoredLogger_init sys name v t) name [(m, lvlStr)] aT fT).1)
        m).handlers = 1 ∧
    countFileHandlers
      (getLoggerState
        ((configure_logging (ColoredLogger_init sys name v t) name [(m, lvlStr)] aT fT).1)
        m).handlers = 1 ∧
    countCritHandlers
      (getLoggerState
        ((configure_logging (ColoredLogger_init sys name v t) name [(m, lvlStr)] aT fT).1)
        m).handlers = 0 ∧
    ∃ cline p fline,
      emitRecord
        ((configure_logging (ColoredLogger_init sys name v t) name [(m, lvlStr)] aT fT).1)
        m 50 msg a f = [Event.console cline, Event.fileLine p fline] := by
  have hsys : (configure_logging (ColoredLogger_init sys name v t) name [(m, lvlStr)] aT fT).1 =
      setupModuleLogger (configure_third_party_loggers (ColoredLogger_init sys name v t)) m
        (map_log_level lvlStr) := by
    simp [configure_logging]
  have hst : getLoggerState
      (setupModuleLogger (configure_third_party_loggers (ColoredLogger_init sys name v t)) m
        (map_log_level lvlStr)) m =
      ⟨map_log_level lvlStr, false,
       [⟨HandlerKind.console, map_log_level lvlStr, true⟩,
        ⟨HandlerKind.file
          ((configure_third_party_loggers
            (ColoredLogger_init sys name v t)).sharedLogFile.getD ("")), 10, false⟩]⟩ := by
    unfold setupModuleLogger
    rw [getLoggerState_setLoggerState]
  have hub := map_log_level_ub lvlStr
  have hE := emitRecord_ownHandlers
    (setupModuleLogger (configure_third_party_loggers (ColoredLogger_init sys name v t)) m
      (map_log_level lvlStr)) m
    (by rw [hst]) (by rw [hst]; exact map_log_level_ne_zero lvlStr) (by rw [hst]; simp)
    50 msg a f
  rw [hsys, hst]
  refine ⟨by simp [countConsoleHandlers, isConsoleKind],
          by simp [countFileHandlers, isFileKind],
          by simp [countCritHandlers, isCritKind], ?_⟩
  refine ⟨ColoredFormatter_format true ⟨m, 50, msg, a, f⟩,
          (configure_third_party_loggers
            (ColoredLogger_init sys name v t)).sharedLogFile.getD (""),
          ColoredFormatter_format false ⟨m, 50, msg, a, f⟩, ?_⟩
  rw [hE, hst]
  simp [runHandlers, handlerEmit, hub]

/-- C10: every logger built by the constructor has propagation disabled,
and (for any surrounding process state, in particular one where the root
logger has handlers attached, and after any number of earlier
constructions) an emission through it is decided entirely by its own
attached sinks: its event list is exactly the run of its own handler
list when the record passes the logger's level, and empty otherwise —
no parent or root handler ever receives the record. -/
theorem c10_propagation_disabled (sys : LogSystem) (name v t msg a f : String) (lvl : Nat) :
    (getLoggerState (ColoredLogger_init sys name v t) name).propagate = false ∧
    emitRecord (ColoredLogger_init sys name v t) name lvl msg a f =
      (if (getLoggerState (ColoredLogger_init sys name v t) name).level ≤ lvl then
        runHandlers (getLoggerState (ColoredLogger_init sys name v t) name).handlers
          ⟨name, lvl, msg, a, f⟩
      else []) := by
  have hst := getLoggerState_init sys name v t
  refine ⟨by rw [hst], ?_⟩
  exact emitRecord_ownHandlers (ColoredLogger_init sys name v t) name
    (by rw [hst]) (by rw [hst]; exact map_log_level_ne_zero v) (by rw [hst]; simp)
    lvl msg a f

end SchoolLogging
